import Mathlib

/-!
Verification of the Daytona runner-manager autoscaler (Core A) and the
sandbox preview proxy authentication layer (Core B), shallowly embedded
from the Go sources.  Scalar quantities that the Go code stores as
`float32` are modelled as rationals; Go `int` values are modelled as `Int`
(list lengths as `Nat`); Go nullable pointers are modelled as `Option`.
-/

namespace Daytona

/-- A runner as reported by the Daytona Admin API.  The nullable allocated
fields are `Option`; the Go getters return the zero value for `nil`. -/
structure Runner where
  name : String
  domain : String
  cpu : ℚ
  memory : ℚ
  currentAllocatedCpu : Option ℚ
  currentAllocatedMemoryGiB : Option ℚ
  currentAllocatedDiskGiB : ℚ
  currentStartedSandboxes : ℤ
  currentSnapshotCount : ℤ
  unschedulable : Bool
  deriving DecidableEq, Repr

/-- A Kubernetes node: the `Status.Allocatable` map may miss the cpu or
memory entry, in which case the Go code reads a zero `Quantity`. -/
structure Node where
  name : String
  unschedulable : Bool
  addresses : List String
  allocatableCpuMilli : Option ℤ
  allocatableMemoryBytes : Option ℤ
  deriving DecidableEq, Repr

/-- A placeholder pod: `nodeName` is empty until the pod is scheduled. -/
structure Pod where
  name : String
  nodeName : String
  deriving DecidableEq, Repr

/-- The raw inputs of one controller tick, as fetched by
`gatherClusterState` (runner list, placeholder pods already split on
`Spec.NodeName`, node list). -/
structure ClusterState where
  runners : List Runner
  pendingPlaceholders : List Pod
  scheduledPlaceholders : List Pod
  nodes : List Node
  deriving Repr

/-- The autoscaler configuration values used by the scale decisions. -/
structure Config where
  MaxResourceUtilizationPercent : ℤ
  MinIdleRunners : ℤ
  MinIdleCpu : ℤ
  MinIdleMemory : ℤ
  deriving DecidableEq, Repr

/-- The aggregated metrics record filled by `calculateResourceMetrics`. -/
structure ResourceMetrics where
  TotalCPUCapacity : ℚ
  TotalMemoryGiBCapacity : ℚ
  TotalAllocatedCPU : ℚ
  TotalAllocatedMemoryGiB : ℚ
  TotalAvailableCPU : ℚ
  TotalAvailableMemoryGiB : ℚ
  AvgCpuPerNode : ℚ
  AvgMemPerNode : ℚ
  deriving DecidableEq, Repr

/-- The `isAllocated` test of `gatherClusterState`: any of the five
current-usage getters strictly positive. -/
def isAllocated (r : Runner) : Bool :=
  decide (0 < r.currentAllocatedCpu.getD 0) ||
  decide (0 < r.currentAllocatedMemoryGiB.getD 0) ||
  decide (0 < r.currentAllocatedDiskGiB) ||
  decide (0 < r.currentStartedSandboxes) ||
  decide (0 < r.currentSnapshotCount)

/-- `state.ActiveRunners` after the classification loop. -/
def activeRunners (rs : List Runner) : List Runner :=
  rs.filter (fun r => isAllocated r)

/-- `state.DeletableRunners` after the classification loop. -/
def deletableRunners (rs : List Runner) : List Runner :=
  rs.filter (fun r => !isAllocated r && r.unschedulable)

/-- `state.IdleRunners` after the classification loop. -/
def idleRunners (rs : List Runner) : List Runner :=
  rs.filter (fun r => !isAllocated r && !r.unschedulable)

/-- `extractNodeIPs`: all addresses reported by a node. -/
def extractNodeIPs (n : Node) : List String :=
  n.addresses

/-- `state.NodeByIP`: built by inserting every address of every node in
list order, so a later node overwrites an earlier one sharing an address.
Lookup therefore returns the last node carrying the address. -/
def nodeByIP (nodes : List Node) (ip : String) : Option Node :=
  nodes.reverse.find? (fun n => (extractNodeIPs n).contains ip)

/-- `state.RunnerByDomain` membership: a runner with this (non-empty)
domain was inserted during the classification loop. -/
def runnerByDomainHas (rs : List Runner) (ip : String) : Bool :=
  rs.any (fun r => r.domain == ip && r.domain != "")

/-- `state.NascentNodes`: schedulable nodes none of whose addresses maps
to a runner, that host a scheduled placeholder pod. -/
def nascentNodes (s : ClusterState) : List Node :=
  s.nodes.filter (fun n =>
    !n.unschedulable &&
    !(extractNodeIPs n).any (fun ip => runnerByDomainHas s.runners ip) &&
    s.scheduledPlaceholders.any (fun pod => pod.nodeName == n.name))

/-- Allocatable CPU in cores, as `getNodeAllocatableResources` computes it
(`MilliValue / 1000`; a missing map entry reads as a zero quantity). -/
def nodeAllocatableCpuCores (n : Node) : ℚ :=
  ((n.allocatableCpuMilli.getD 0 : ℤ) : ℚ) / 1000

/-- Allocatable memory in GiB, as `getNodeAllocatableResources` computes
it (`Value / (1024*1024*1024)`). -/
def nodeAllocatableMemoryGiB (n : Node) : ℚ :=
  ((n.allocatableMemoryBytes.getD 0 : ℤ) : ℚ) / (1024 * 1024 * 1024)

/-- `getNodeAllocatableResources`: converts a node's allocatable entries
to (cores, GiB).  Its error result is part of the signature but the body
always returns the success case. -/
def getNodeAllocatableResources (node : Node) : Except String (ℚ × ℚ) :=
  Except.ok (nodeAllocatableCpuCores node, nodeAllocatableMemoryGiB node)

/-- One iteration of the first loop of `calculateResourceMetrics`: a
schedulable runner adds its self-reported capacity to the totals and, if
its domain resolves through `NodeByIP`, records that node's name in the
`nodesWithRunners` set. -/
def runnerCapacityStep (byIP : String → Option Node)
    (acc : ℚ × ℚ × List String) (r : Runner) : ℚ × ℚ × List String :=
  if !r.unschedulable then
    let cpuAcc := acc.1 + r.cpu
    let memAcc := acc.2.1 + r.memory
    if r.domain != "" then
      match byIP r.domain with
      | some node => (cpuAcc, memAcc, acc.2.2 ++ [node.name])
      | none => (cpuAcc, memAcc, acc.2.2)
    else (cpuAcc, memAcc, acc.2.2)
  else acc

/-- The first loop of `calculateResourceMetrics` over all runners. -/
def runnerCapacityLoop (byIP : String → Option Node) (rs : List Runner) :
    ℚ × ℚ × List String :=
  rs.foldl (runnerCapacityStep byIP) (0, 0, [])

/-- One iteration of the second loop of `calculateResourceMetrics`: a
schedulable node not matched to a runner adds its allocatable resources;
the error branch logs a warning and skips the node. -/
def nodeCapacityStep (nodesWithRunners : List String) (acc : ℚ × ℚ)
    (node : Node) : ℚ × ℚ :=
  if !node.unschedulable then
    if nodesWithRunners.contains node.name then acc
    else
      match getNodeAllocatableResources node with
      | Except.error _ => acc
      | Except.ok (c, m) => (acc.1 + c, acc.2 + m)
  else acc

/-- The second loop of `calculateResourceMetrics` over all nodes. -/
def nodeCapacityLoop (nodesWithRunners : List String) (nodes : List Node) :
    ℚ × ℚ :=
  nodes.foldl (nodeCapacityStep nodesWithRunners) (0, 0)

/-- Variant of `nodeCapacityStep` without the warn-and-skip error branch,
used to show that branch is unreachable. -/
def nodeCapacityStepNoSkip (nodesWithRunners : List String) (acc : ℚ × ℚ)
    (node : Node) : ℚ × ℚ :=
  if !node.unschedulable then
    if nodesWithRunners.contains node.name then acc
    else (acc.1 + nodeAllocatableCpuCores node, acc.2 + nodeAllocatableMemoryGiB node)
  else acc

/-- `nodeCapacityLoop` with the error branch removed. -/
def nodeCapacityLoopNoSkip (nodesWithRunners : List String)
    (nodes : List Node) : ℚ × ℚ :=
  nodes.foldl (nodeCapacityStepNoSkip nodesWithRunners) (0, 0)

/-- The third loop of `calculateResourceMetrics`: sum the allocated CPU
and memory of the Active runners, skipping `nil` entries. -/
def allocatedStep (acc : ℚ × ℚ) (r : Runner) : ℚ × ℚ :=
  let cpuAcc := match r.currentAllocatedCpu with
    | some v => acc.1 + v
    | none => acc.1
  let memAcc := match r.currentAllocatedMemoryGiB with
    | some v => acc.2 + v
    | none => acc.2
  (cpuAcc, memAcc)

/-- The allocated-resources loop over the Active runners. -/
def allocatedLoop (rs : List Runner) : ℚ × ℚ :=
  rs.foldl allocatedStep (0, 0)

/-- `calculateResourceMetrics`, composed from the three loops exactly as
the Go function runs them. -/
def calculateResourceMetrics (s : ClusterState) : ResourceMetrics :=
  let firstLoop := runnerCapacityLoop (nodeByIP s.nodes) s.runners
  let nodesWithRunners := firstLoop.2.2
  let nodeCap := nodeCapacityLoop nodesWithRunners s.nodes
  let capCpu := firstLoop.1 + nodeCap.1
  let capMem := firstLoop.2.1 + nodeCap.2
  let alloc := allocatedLoop (activeRunners s.runners)
  let schedulableNodeCount := (s.nodes.filter (fun n => !n.unschedulable)).length
  { TotalCPUCapacity := capCpu
    TotalMemoryGiBCapacity := capMem
    TotalAllocatedCPU := alloc.1
    TotalAllocatedMemoryGiB := alloc.2
    TotalAvailableCPU := capCpu - alloc.1
    TotalAvailableMemoryGiB := capMem - alloc.2
    AvgCpuPerNode := if 0 < schedulableNodeCount then capCpu / (schedulableNodeCount : ℚ) else 0
    AvgMemPerNode := if 0 < schedulableNodeCount then capMem / (schedulableNodeCount : ℚ) else 0 }

/-- Spec-side description of the `nodesWithRunners` set: the node names
matched, via `NodeByIP` on a non-empty runner domain, to a schedulable
runner. -/
def matchedNodeName (s : ClusterState) (name : String) : Bool :=
  s.runners.any (fun r =>
    !r.unschedulable && r.domain != "" &&
    (match nodeByIP s.nodes r.domain with
     | some node => node.name == name
     | none => false))

/-- Spec-side sum: self-reported CPU capacity over schedulable runners. -/
def schedulableRunnerCpuSum (s : ClusterState) : ℚ :=
  ((s.runners.filter (fun r => !r.unschedulable)).map Runner.cpu).sum

/-- Spec-side sum: self-reported memory capacity over schedulable runners. -/
def schedulableRunnerMemSum (s : ClusterState) : ℚ :=
  ((s.runners.filter (fun r => !r.unschedulable)).map Runner.memory).sum

/-- Spec-side sum: allocatable CPU over schedulable nodes not matched to a
schedulable runner. -/
def unmatchedNodeCpuSum (s : ClusterState) : ℚ :=
  ((s.nodes.filter (fun n => !n.unschedulable && !matchedNodeName s n.name)).map
    nodeAllocatableCpuCores).sum

/-- Spec-side sum: allocatable memory over schedulable nodes not matched
to a schedulable runner. -/
def unmatchedNodeMemSum (s : ClusterState) : ℚ :=
  ((s.nodes.filter (fun n => !n.unschedulable && !matchedNodeName s n.name)).map
    nodeAllocatableMemoryGiB).sum

/-- The matched node names produced by the first loop, in closed form. -/
def runnerMatchedNames (byIP : String → Option Node) (rs : List Runner) :
    List String :=
  rs.filterMap (fun r =>
    if !r.unschedulable && r.domain != "" then (byIP r.domain).map Node.name
    else none)

/-- The per-runner body of the `handleScaleDown` loop: skip a runner with
an empty domain or an unresolved node; reject the node if removing it
would push the pre-tick availability below either idle minimum; otherwise
pick the scheduled placeholder pod on that node, if any. -/
def scaleDownCandidate (cfg : Config) (s : ClusterState)
    (metrics : ResourceMetrics) (runner : Runner) : Option Pod :=
  if runner.domain == "" then none
  else
    match nodeByIP s.nodes runner.domain with
    | none => none
    | some node =>
      match getNodeAllocatableResources node with
      | Except.error _ => none
      | Except.ok (nodeCpuCapacity, nodeMemCapacity) =>
        let hypotheticalAvailableCpu := metrics.TotalAvailableCPU - nodeCpuCapacity
        let hypotheticalAvailableMemoryGiB :=
          metrics.TotalAvailableMemoryGiB - nodeMemCapacity
        let isSafeToDelete :=
          !(decide (hypotheticalAvailableCpu < (cfg.MinIdleCpu : ℚ))) &&
          !(decide (hypotheticalAvailableMemoryGiB < (cfg.MinIdleMemory : ℚ)))
        if isSafeToDelete then
          s.scheduledPlaceholders.find? (fun pod => pod.nodeName == node.name)
        else none

/-- Variant of `scaleDownCandidate` without the warn-and-skip error
branch after `getNodeAllocatableResources`. -/
def scaleDownCandidateNoSkip (cfg : Config) (s : ClusterState)
    (metrics : ResourceMetrics) (runner : Runner) : Option Pod :=
  if runner.domain == "" then none
  else
    match nodeByIP s.nodes runner.domain with
    | none => none
    | some node =>
      let hypotheticalAvailableCpu :=
        metrics.TotalAvailableCPU - nodeAllocatableCpuCores node
      let hypotheticalAvailableMemoryGiB :=
        metrics.TotalAvailableMemoryGiB - nodeAllocatableMemoryGiB node
      let isSafeToDelete :=
        !(decide (hypotheticalAvailableCpu < (cfg.MinIdleCpu : ℚ))) &&
        !(decide (hypotheticalAvailableMemoryGiB < (cfg.MinIdleMemory : ℚ)))
      if isSafeToDelete then
        s.scheduledPlaceholders.find? (fun pod => pod.nodeName == node.name)
      else none

/-- Appends the produced element of a per-item candidate to an
accumulator list, or leaves the accumulator unchanged. -/
def appendCandidate {α β : Type} (f : α → Option β) (acc : List β) (x : α) :
    List β :=
  match f x with
  | some b => acc ++ [b]
  | none => acc

/-- The batch of placeholder pods `handleScaleDown` collects for deletion
from the Deletable runners. -/
def handleScaleDownBatch (cfg : Config) (s : ClusterState)
    (metrics : ResourceMetrics) : List Pod :=
  (deletableRunners s.runners).foldl
    (appendCandidate (scaleDownCandidate cfg s metrics)) []

/-- CPU utilization check shared by `shouldScaleUp` and `handleScaleUp`:
false when capacity is zero, else allocated share above the maximum. -/
def isCpuUtilizationTooHigh (m : ResourceMetrics) (cfg : Config) : Bool :=
  decide (0 < m.TotalCPUCapacity) &&
  decide ((cfg.MaxResourceUtilizationPercent : ℚ) <
    (m.TotalAllocatedCPU / m.TotalCPUCapacity) * 100)

/-- Memory utilization check shared by `shouldScaleUp` and `handleScaleUp`. -/
def isMemUtilizationTooHigh (m : ResourceMetrics) (cfg : Config) : Bool :=
  decide (0 < m.TotalMemoryGiBCapacity) &&
  decide ((cfg.MaxResourceUtilizationPercent : ℚ) <
    (m.TotalAllocatedMemoryGiB / m.TotalMemoryGiBCapacity) * 100)

/-- Combined utilization predicate. -/
def isUtilizationTooHigh (m : ResourceMetrics) (cfg : Config) : Bool :=
  isCpuUtilizationTooHigh m cfg || isMemUtilizationTooHigh m cfg

/-- Idle-runner buffer check: idle runners plus nascent nodes below the
configured minimum. -/
def isIdleRunnerBufferTooLow (cfg : Config)
    (idleRunnersCount nascentNodesCount : ℕ) : Bool :=
  decide (((idleRunnersCount + nascentNodesCount : ℕ) : ℤ) < cfg.MinIdleRunners)

/-- Available CPU below the configured idle minimum. -/
def isCpuIdleTooLow (m : ResourceMetrics) (cfg : Config) : Bool :=
  decide (m.TotalAvailableCPU < (cfg.MinIdleCpu : ℚ))

/-- Available memory below the configured idle minimum. -/
def isMemIdleTooLow (m : ResourceMetrics) (cfg : Config) : Bool :=
  decide (m.TotalAvailableMemoryGiB < (cfg.MinIdleMemory : ℚ))

/-- `shouldScaleUp`: any of the four predicates fires. -/
def shouldScaleUp (m : ResourceMetrics) (cfg : Config)
    (idleRunnersCount nascentNodesCount : ℕ) : Bool :=
  isUtilizationTooHigh m cfg ||
  isIdleRunnerBufferTooLow cfg idleRunnersCount nascentNodesCount ||
  isCpuIdleTooLow m cfg || isMemIdleTooLow m cfg

/-- One guarded `max` accumulation of the deficit computation in
`handleScaleUp`. -/
def deficitStep (prev : ℤ) (cond : Bool) (x : ℤ) : ℤ :=
  if cond then max prev x else prev

/-- The three guarded `max` accumulations of `handleScaleUp` over the CPU
deficit, the memory deficit and the runner-count deficit, in program
order. -/
def deficitRaw (cfg : Config) (m : ResourceMetrics)
    (idleRunnersCount nascentNodesCount : ℕ) : ℤ :=
  deficitStep
    (deficitStep
      (deficitStep 0
        (isCpuIdleTooLow m cfg && decide (0 < m.AvgCpuPerNode))
        ⌈((cfg.MinIdleCpu : ℚ) - m.TotalAvailableCPU) / m.AvgCpuPerNode⌉)
      (isMemIdleTooLow m cfg && decide (0 < m.AvgMemPerNode))
      ⌈((cfg.MinIdleMemory : ℚ) - m.TotalAvailableMemoryGiB) / m.AvgMemPerNode⌉)
    (isIdleRunnerBufferTooLow cfg idleRunnersCount nascentNodesCount)
    (cfg.MinIdleRunners - ((idleRunnersCount + nascentNodesCount : ℕ) : ℤ))

/-- The `nodesNeededFromDeficit` value of `handleScaleUp`: the guarded
maxima, bumped to 1 when only utilization is too high. -/
def nodesNeededFromDeficit (cfg : Config) (m : ResourceMetrics)
    (idleRunnersCount nascentNodesCount : ℕ) : ℤ :=
  if isUtilizationTooHigh m cfg &&
      decide (deficitRaw cfg m idleRunnersCount nascentNodesCount = 0) then 1
  else deficitRaw cfg m idleRunnersCount nascentNodesCount

/-- The observable result of one `handleScaleUp` call. -/
structure ScaleUpResult where
  nodesNeeded : ℤ
  nodesToCreate : ℤ
  podsCreated : ℕ
  triggered : Bool
  deriving DecidableEq, Repr

/-- `handleScaleUp`: compute the deficit, subtract the pending
placeholders, and create placeholder pods only for a positive result
(returning true exactly then). -/
def handleScaleUp (cfg : Config) (s : ClusterState) (m : ResourceMetrics) :
    ScaleUpResult :=
  let idleCount := (idleRunners s.runners).length
  let nascentCount := (nascentNodes s).length
  let needed := nodesNeededFromDeficit cfg m idleCount nascentCount
  let nodesToCreate := needed - (s.pendingPlaceholders.length : ℤ)
  { nodesNeeded := needed
    nodesToCreate := nodesToCreate
    podsCreated := if 0 < nodesToCreate then nodesToCreate.toNat else 0
    triggered := decide (0 < nodesToCreate) }

/-- The per-tick `nodesToCreate` of `runControllerLoop`, taking the value
0 on ticks where `shouldScaleUp` does not fire. -/
def tickNodesToCreate (cfg : Config) (s : ClusterState) (m : ResourceMetrics) : ℤ :=
  if shouldScaleUp m cfg (idleRunners s.runners).length (nascentNodes s).length then
    (handleScaleUp cfg s m).nodesToCreate
  else 0

/-- The number of placeholder pods a tick creates: zero when
`shouldScaleUp` does not fire, else the pods `handleScaleUp` creates. -/
def tickPodsCreated (cfg : Config) (s : ClusterState) (m : ResourceMetrics) : ℕ :=
  if shouldScaleUp m cfg (idleRunners s.runners).length (nascentNodes s).length then
    (handleScaleUp cfg s m).podsCreated
  else 0

/-- A concrete allocated runner, used in witnesses. -/
def sampleActiveRunner : Runner :=
  { name := "r1", domain := "10.0.0.1", cpu := 8, memory := 16,
    currentAllocatedCpu := some 2, currentAllocatedMemoryGiB := some 4,
    currentAllocatedDiskGiB := 0, currentStartedSandboxes := 1,
    currentSnapshotCount := 0, unschedulable := false }

/-- A concrete unallocated unschedulable runner, used in witnesses. -/
def sampleDeletableRunner : Runner :=
  { name := "r2", domain := "10.0.0.2", cpu := 8, memory := 16,
    currentAllocatedCpu := none, currentAllocatedMemoryGiB := none,
    currentAllocatedDiskGiB := 0, currentStartedSandboxes := 0,
    currentSnapshotCount := 0, unschedulable := true }

/-- A concrete node hosting `sampleDeletableRunner`, used in witnesses. -/
def sampleNode : Node :=
  { name := "node-b", unschedulable := false, addresses := ["10.0.0.2"],
    allocatableCpuMilli := some 8000, allocatableMemoryBytes := some 17179869184 }

/-- A concrete scheduled placeholder pod on `sampleNode`. -/
def samplePod : Pod :=
  { name := "ph-1", nodeName := "node-b" }

/-- A concrete cluster state with one deletable runner resolvable to
`sampleNode` carrying `samplePod`. -/
def sampleScaleDownState : ClusterState :=
  { runners := [sampleDeletableRunner], pendingPlaceholders := [],
    scheduledPlaceholders := [samplePod], nodes := [sampleNode] }

/-- A concrete metrics record with generous availability. -/
def sampleMetrics : ResourceMetrics :=
  { TotalCPUCapacity := 32, TotalMemoryGiBCapacity := 64,
    TotalAllocatedCPU := 4, TotalAllocatedMemoryGiB := 8,
    TotalAvailableCPU := 28, TotalAvailableMemoryGiB := 56,
    AvgCpuPerNode := 8, AvgMemPerNode := 16 }

/-- A concrete configuration used in witnesses. -/
def sampleConfig : Config :=
  { MaxResourceUtilizationPercent := 80, MinIdleRunners := 0,
    MinIdleCpu := 4, MinIdleMemory := 8 }

/-- A lower-minimum configuration for the monotonicity comparison. -/
def sampleMonoConfigA : Config :=
  { MaxResourceUtilizationPercent := 80, MinIdleRunners := 0,
    MinIdleCpu := 5, MinIdleMemory := 0 }

/-- `sampleMonoConfigA` with `MinIdleCpu` raised by 1. -/
def sampleMonoConfigB : Config :=
  { MaxResourceUtilizationPercent := 80, MinIdleRunners := 0,
    MinIdleCpu := 6, MinIdleMemory := 0 }

/-- A state with five pending placeholder pods and nothing else. -/
def sampleMonoState : ClusterState :=
  { runners := [],
    pendingPlaceholders :=
      [{ name := "p1", nodeName := "" }, { name := "p2", nodeName := "" },
       { name := "p3", nodeName := "" }, { name := "p4", nodeName := "" },
       { name := "p5", nodeName := "" }],
    scheduledPlaceholders := [], nodes := [] }

/-- Metrics with 5 available CPU cores and low utilization. -/
def sampleMonoMetrics : ResourceMetrics :=
  { TotalCPUCapacity := 10, TotalMemoryGiBCapacity := 200,
    TotalAllocatedCPU := 5, TotalAllocatedMemoryGiB := 100,
    TotalAvailableCPU := 5, TotalAvailableMemoryGiB := 100,
    AvgCpuPerNode := 2, AvgMemPerNode := 20 }

/-- A state with exactly one pending placeholder pod. -/
def sampleScaleUpState : ClusterState :=
  { runners := [],
    pendingPlaceholders := [{ name := "p0", nodeName := "" }],
    scheduledPlaceholders := [], nodes := [] }

/-- Metrics whose CPU availability is below `sampleScaleUpConfig`'s
minimum by one average node. -/
def sampleScaleUpMetrics : ResourceMetrics :=
  { TotalCPUCapacity := 16, TotalMemoryGiBCapacity := 32,
    TotalAllocatedCPU := 8, TotalAllocatedMemoryGiB := 8,
    TotalAvailableCPU := 8, TotalAvailableMemoryGiB := 24,
    AvgCpuPerNode := 8, AvgMemPerNode := 16 }

/-- A configuration demanding 16 idle CPU cores. -/
def sampleScaleUpConfig : Config :=
  { MaxResourceUtilizationPercent := 80, MinIdleRunners := 0,
    MinIdleCpu := 16, MinIdleMemory := 0 }

/-- `strings.HasPrefix`, as a structural check on the character list. -/
def hasPrefixB (s p : String) : Bool :=
  p.data.isPrefixOf s.data

/-- `strings.TrimPrefix` for the case where the prefix is present. -/
def dropPrefixStr (s p : String) : String :=
  { data := s.data.drop p.data.length }

/-- `strings.TrimSpace`: drop whitespace from both ends. -/
def trimSpaceStr (s : String) : String :=
  { data := ((s.data.dropWhile Char.isWhitespace).reverse.dropWhile
      Char.isWhitespace).reverse }

/-- Outcome of one validator call: the Go pair `(isValid *bool, err)`
collapses to an error message or a definite boolean (a nil `isValid`
pointer with nil error counts as false). -/
inductive ValidationResult where
  | ok (valid : Bool)
  | fail (msg : String)
  deriving DecidableEq, Repr

/-- The credential material of one incoming request, as the Go handler
reads it: header and query values are empty strings when absent, the
cookie is `none` when `ctx.Cookie` errors (cookie not present). -/
structure AuthRequest where
  authorizationHeader : String
  authKeyHeader : String
  queryAuthKey : String
  cookie : Option String
  deriving DecidableEq, Repr

/-- The environment of one `Authenticate` call: the responses of the API
validators, the secure-cookie codec and the auth-URL helper for this
request's path token and port. -/
structure AuthEnv where
  bearerValid : String → ValidationResult
  authKeyValid : String → ValidationResult
  cookieDecode : String → String → Except String String
  exchangeToken : Except String String
  cookieEncode : String → String → Except String String
  authUrl : Except String String

/-- The cookie-name prefix `SANDBOX_AUTH_COOKIE_NAME` (its exact literal
lives with the proxy's constants and is irrelevant to the control flow). -/
def SANDBOX_AUTH_COOKIE_NAME : String := "daytona-sandbox-auth-"

/-- The canonical message returned when no authentication was presented. -/
def MISSING_AUTH_MESSAGE : String :=
  "missing authentication: provide a preview access token (via header, query parameter, or cookie) or use an API key or JWT"

/-- Everything observable about one `Authenticate` call: the returned
triple, the collected failure reasons, which validators ran, the header
and query mutations, the cookies set and the redirect target. -/
structure AuthOutcome where
  sandboxId : String
  didRedirect : Bool
  errMsg : Option String
  authErrors : List String
  bearerInvoked : Bool
  headerKeyInvoked : Bool
  queryKeyInvoked : Bool
  headerStripped : Bool
  queryParamRemoved : Bool
  cookiesSet : List (String × String)
  redirectedTo : Option String
  deriving DecidableEq, Repr

/-- Flags and reasons accumulated along the failure path. -/
structure AuthAcc where
  authErrors : List String
  bearerInvoked : Bool
  headerKeyInvoked : Bool
  queryKeyInvoked : Bool
  headerStripped : Bool
  deriving DecidableEq, Repr

/-- `getSandboxIdFromSignedPreviewUrlToken`: exchange the path token at
the API, then encode the auth cookie for the resolved sandbox id; an
encoding failure fails the whole attempt and no cookie is set.  On
success returns the sandbox id with the cookie that was set. -/
def getSandboxIdFromSignedPreviewUrlToken (env : AuthEnv) :
    Except String (String × (String × String)) :=
  match env.exchangeToken with
  | Except.error e =>
    Except.error ("failed to get sandbox ID: " ++ e ++ ". Is the token expired?")
  | Except.ok sandboxId =>
    match env.cookieEncode (SANDBOX_AUTH_COOKIE_NAME ++ sandboxId) sandboxId with
    | Except.error e => Except.error ("failed to encode cookie: " ++ e)
    | Except.ok encoded =>
      Except.ok (sandboxId, (SANDBOX_AUTH_COOKIE_NAME ++ sandboxId, encoded))

/-- The unconditional tail of `Authenticate`: try the signed preview URL
token, and on failure compute the auth URL, redirect with 307 and build
the aggregated error message (canonical only when no reasons were
collected). -/
def finishAuth (env : AuthEnv) (tok : String) (acc : AuthAcc) : AuthOutcome :=
  match getSandboxIdFromSignedPreviewUrlToken env with
  | Except.ok (sandboxId, cookie) =>
    { sandboxId := sandboxId, didRedirect := false, errMsg := none,
      authErrors := acc.authErrors, bearerInvoked := acc.bearerInvoked,
      headerKeyInvoked := acc.headerKeyInvoked, queryKeyInvoked := acc.queryKeyInvoked,
      headerStripped := acc.headerStripped, queryParamRemoved := false,
      cookiesSet := [cookie], redirectedTo := none }
  | Except.error e =>
    let errs := acc.authErrors ++ [e]
    match env.authUrl with
    | Except.error ue =>
      { sandboxId := tok, didRedirect := false,
        errMsg := some ("failed to get auth URL: " ++ ue),
        authErrors := errs, bearerInvoked := acc.bearerInvoked,
        headerKeyInvoked := acc.headerKeyInvoked, queryKeyInvoked := acc.queryKeyInvoked,
        headerStripped := acc.headerStripped, queryParamRemoved := false,
        cookiesSet := [], redirectedTo := none }
    | Except.ok url =>
      { sandboxId := tok, didRedirect := true,
        errMsg := some (if errs.isEmpty then MISSING_AUTH_MESSAGE
          else "authentication failed:\n" ++ String.intercalate "\n;\n" errs),
        authErrors := errs, bearerInvoked := acc.bearerInvoked,
        headerKeyInvoked := acc.headerKeyInvoked, queryKeyInvoked := acc.queryKeyInvoked,
        headerStripped := acc.headerStripped, queryParamRemoved := false,
        cookiesSet := [], redirectedTo := some url }

/-- The cookie attempt: decode the request cookie named after the path
token; a decode error records a reason, a decoded value equal to the
token succeeds, and a mismatching decoded value only logs a warning
(recording nothing) before falling through. -/
def cookieAuthStep (env : AuthEnv) (req : AuthRequest) (tok : String)
    (acc : AuthAcc) : AuthOutcome :=
  match req.cookie with
  | some cookieValue =>
    if cookieValue ≠ "" then
      match env.cookieDecode (SANDBOX_AUTH_COOKIE_NAME ++ tok) cookieValue with
      | Except.error e =>
        finishAuth env tok
          { acc with authErrors := acc.authErrors ++ ["Cookie decoding error: " ++ e] }
      | Except.ok decodedValue =>
        if decodedValue = tok then
          { sandboxId := tok, didRedirect := false, errMsg := none,
            authErrors := acc.authErrors, bearerInvoked := acc.bearerInvoked,
            headerKeyInvoked := acc.headerKeyInvoked,
            queryKeyInvoked := acc.queryKeyInvoked,
            headerStripped := acc.headerStripped, queryParamRemoved := false,
            cookiesSet := [], redirectedTo := none }
        else finishAuth env tok acc
    else finishAuth env tok acc
  | none => finishAuth env tok acc

/-- The auth-key query parameter attempt; on success the parameter is
removed from the forwarded query string. -/
def queryAuthStep (env : AuthEnv) (req : AuthRequest) (tok : String)
    (acc : AuthAcc) : AuthOutcome :=
  if req.queryAuthKey ≠ "" then
    match env.authKeyValid req.queryAuthKey with
    | ValidationResult.fail e =>
      cookieAuthStep env req tok
        { acc with
          queryKeyInvoked := true,
          authErrors := acc.authErrors ++ ["Auth key query param validation error: " ++ e] }
    | ValidationResult.ok true =>
      { sandboxId := tok, didRedirect := false, errMsg := none,
        authErrors := acc.authErrors, bearerInvoked := acc.bearerInvoked,
        headerKeyInvoked := acc.headerKeyInvoked, queryKeyInvoked := true,
        headerStripped := acc.headerStripped, queryParamRemoved := true,
        cookiesSet := [], redirectedTo := none }
    | ValidationResult.ok false =>
      cookieAuthStep env req tok
        { acc with
          queryKeyInvoked := true,
          authErrors := acc.authErrors ++ ["Auth key query parameter is invalid"] }
  else cookieAuthStep env req tok acc

/-- The auth-key header attempt: when the header is present it is deleted
from the forwarded request before validation (so it is stripped on every
outcome of this attempt, but only when this attempt runs). -/
def headerAuthStep (env : AuthEnv) (req : AuthRequest) (tok : String)
    (acc : AuthAcc) : AuthOutcome :=
  if req.authKeyHeader ≠ "" then
    match env.authKeyValid req.authKeyHeader with
    | ValidationResult.fail e =>
      queryAuthStep env req tok
        { acc with
          headerKeyInvoked := true,
          headerStripped := true,
          authErrors := acc.authErrors ++ ["Auth key header validation error: " ++ e] }
    | ValidationResult.ok true =>
      { sandboxId := tok, didRedirect := false, errMsg := none,
        authErrors := acc.authErrors, bearerInvoked := acc.bearerInvoked,
        headerKeyInvoked := true, queryKeyInvoked := false,
        headerStripped := true, queryParamRemoved := false,
        cookiesSet := [], redirectedTo := none }
    | ValidationResult.ok false =>
      queryAuthStep env req tok
        { acc with
          headerKeyInvoked := true,
          headerStripped := true,
          authErrors := acc.authErrors ++ ["Auth key header is invalid"] }
  else queryAuthStep env req tok acc

/-- `Authenticate`: the ordered credential attempts of the proxy,
starting with the bearer token in the `Authorization` header. -/
def Authenticate (env : AuthEnv) (req : AuthRequest) (tok : String) :
    AuthOutcome :=
  let acc0 : AuthAcc :=
    { authErrors := [], bearerInvoked := false, headerKeyInvoked := false,
      queryKeyInvoked := false, headerStripped := false }
  if req.authorizationHeader ≠ "" ∧ hasPrefixB req.authorizationHeader "Bearer " then
    match env.bearerValid (trimSpaceStr (dropPrefixStr req.authorizationHeader "Bearer ")) with
    | ValidationResult.fail e =>
      headerAuthStep env req tok
        { acc0 with
          bearerInvoked := true,
          authErrors := ["Bearer token validation error: " ++ e] }
    | ValidationResult.ok true =>
      { sandboxId := tok, didRedirect := false, errMsg := none,
        authErrors := [], bearerInvoked := true, headerKeyInvoked := false,
        queryKeyInvoked := false, headerStripped := false,
        queryParamRemoved := false, cookiesSet := [], redirectedTo := none }
    | ValidationResult.ok false =>
      headerAuthStep env req tok
        { acc0 with
          bearerInvoked := true,
          authErrors := ["Bearer token is invalid"] }
  else headerAuthStep env req tok acc0

/-- The bearer attempt is applicable: non-empty header with the Bearer
scheme. -/
def bearerApplicable (req : AuthRequest) : Bool :=
  decide (req.authorizationHeader ≠ "") && hasPrefixB req.authorizationHeader "Bearer "

/-- The bearer attempt succeeds. -/
def bearerSucceeds (env : AuthEnv) (req : AuthRequest) : Bool :=
  bearerApplicable req &&
  (env.bearerValid (trimSpaceStr (dropPrefixStr req.authorizationHeader "Bearer ")) ==
    ValidationResult.ok true)

/-- The auth-key header attempt succeeds. -/
def headerSucceeds (env : AuthEnv) (req : AuthRequest) : Bool :=
  decide (req.authKeyHeader ≠ "") && (env.authKeyValid req.authKeyHeader == ValidationResult.ok true)

/-- The auth-key query parameter attempt succeeds. -/
def querySucceeds (env : AuthEnv) (req : AuthRequest) : Bool :=
  decide (req.queryAuthKey ≠ "") && (env.authKeyValid req.queryAuthKey == ValidationResult.ok true)

/-- The cookie attempt succeeds: a present non-empty cookie decodes to
the path token. -/
def cookieSucceeds (env : AuthEnv) (req : AuthRequest) (tok : String) : Bool :=
  match req.cookie with
  | some v =>
    if v = "" then false
    else
      match env.cookieDecode (SANDBOX_AUTH_COOKIE_NAME ++ tok) v with
      | Except.ok decodedValue => decodedValue == tok
      | Except.error _ => false
  | none => false

/-- The reasons the bearer attempt contributes to the failure list. -/
def bearerContrib (env : AuthEnv) (req : AuthRequest) : List String :=
  if bearerApplicable req then
    match env.bearerValid (trimSpaceStr (dropPrefixStr req.authorizationHeader "Bearer ")) with
    | ValidationResult.ok true => []
    | ValidationResult.ok false => ["Bearer token is invalid"]
    | ValidationResult.fail e => ["Bearer token validation error: " ++ e]
  else []

/-- The reasons the auth-key header attempt contributes. -/
def headerContrib (env : AuthEnv) (req : AuthRequest) : List String :=
  if req.authKeyHeader ≠ "" then
    match env.authKeyValid req.authKeyHeader with
    | ValidationResult.ok true => []
    | ValidationResult.ok false => ["Auth key header is invalid"]
    | ValidationResult.fail e => ["Auth key header validation error: " ++ e]
  else []

/-- The reasons the auth-key query attempt contributes. -/
def queryContrib (env : AuthEnv) (req : AuthRequest) : List String :=
  if req.queryAuthKey ≠ "" then
    match env.authKeyValid req.queryAuthKey with
    | ValidationResult.ok true => []
    | ValidationResult.ok false => ["Auth key query parameter is invalid"]
    | ValidationResult.fail e => ["Auth key query param validation error: " ++ e]
  else []

/-- The reasons the cookie attempt contributes: only a decode error; a
successfully decoded but mismatching cookie contributes nothing. -/
def cookieContrib (env : AuthEnv) (req : AuthRequest) (tok : String) : List String :=
  match req.cookie with
  | some v =>
    if v ≠ "" then
      match env.cookieDecode (SANDBOX_AUTH_COOKIE_NAME ++ tok) v with
      | Except.error e => ["Cookie decoding error: " ++ e]
      | Except.ok _ => []
    else []
  | none => []

/-- The reason the signed-token exchange contributes on failure. -/
def exchangeContrib (env : AuthEnv) : List String :=
  match getSandboxIdFromSignedPreviewUrlToken env with
  | Except.error e => [e]
  | Except.ok _ => []

/-- No credential is presented at all: no Bearer authorization, no
auth-key header, no auth-key query parameter, no (non-empty) cookie. -/
def noCredentialsPresented (req : AuthRequest) : Bool :=
  !bearerApplicable req && req.authKeyHeader == "" && req.queryAuthKey == "" &&
  (match req.cookie with
   | some v => v == ""
   | none => true)

/-- Environment where the bearer validator accepts everything. -/
def sampleBearerEnv : AuthEnv :=
  { bearerValid := fun _ => ValidationResult.ok true,
    authKeyValid := fun _ => ValidationResult.ok true,
    cookieDecode := fun _ _ => Except.error "no cookie",
    exchangeToken := Except.error "not a signed token",
    cookieEncode := fun _ v => Except.ok v,
    authUrl := Except.ok "https://auth.example" }

/-- A request carrying both a bearer token and an auth-key header. -/
def sampleBearerRequest : AuthRequest :=
  { authorizationHeader := "Bearer tok123", authKeyHeader := "key456",
    queryAuthKey := "", cookie := none }

/-- A request presenting no credentials at all. -/
def sampleNoCredRequest : AuthRequest :=
  { authorizationHeader := "", authKeyHeader := "", queryAuthKey := "",
    cookie := none }

/-- Environment whose signed-token exchange fails with reason `boom`. -/
def sampleNoCredEnv : AuthEnv :=
  { bearerValid := fun _ => ValidationResult.fail "unused",
    authKeyValid := fun _ => ValidationResult.fail "unused",
    cookieDecode := fun _ _ => Except.error "unused",
    exchangeToken := Except.error "boom",
    cookieEncode := fun _ v => Except.ok v,
    authUrl := Except.ok "https://auth.example" }

/-- A request carrying only a cookie. -/
def sampleCookieRequest : AuthRequest :=
  { authorizationHeader := "", authKeyHeader := "", queryAuthKey := "",
    cookie := some "cv" }

/-- Environment whose cookie decodes fine but to a different sandbox id,
and whose signed-token exchange fails with reason `E`. -/
def sampleCookieEnv : AuthEnv :=
  { bearerValid := fun _ => ValidationResult.fail "unused",
    authKeyValid := fun _ => ValidationResult.fail "unused",
    cookieDecode := fun _ _ => Except.ok "other-sandbox",
    exchangeToken := Except.error "E",
    cookieEncode := fun _ v => Except.ok v,
    authUrl := Except.ok "https://auth.example" }

/-- Environment where the token exchange succeeds but encoding the auth
cookie fails. -/
def sampleEncodeFailEnv : AuthEnv :=
  { bearerValid := fun _ => ValidationResult.fail "unused",
    authKeyValid := fun _ => ValidationResult.fail "unused",
    cookieDecode := fun _ _ => Except.error "unused",
    exchangeToken := Except.ok "sb-real",
    cookieEncode := fun _ _ => Except.error "enc-broken",
    authUrl := Except.ok "https://auth.example" }

end Daytona

namespace Daytona

/-- Folding the append-or-skip body of a collection loop equals
`filterMap` of its per-element candidate. -/
theorem foldl_candidate_eq_filterMap {α β : Type} (f : α → Option β)
    (l : List α) (init : List β) :
    l.foldl (appendCandidate f) init = init ++ l.filterMap f := by
  induction l generalizing init with
  | nil => simp
  | cons x xs ih =>
    cases hfx : f x with
    | none => simp [List.foldl_cons, appendCandidate, hfx, List.filterMap_cons, ih]
    | some b => simp [List.foldl_cons, appendCandidate, hfx, List.filterMap_cons, ih]

/-- Decomposition of the first loop of `calculateResourceMetrics`: the
capacity components are the sums over schedulable runners and the set
component is the matched-name list, for any initial accumulator. -/
theorem runnerCapacityLoop_aux (byIP : String → Option Node) (rs : List Runner) :
    ∀ a b l, rs.foldl (runnerCapacityStep byIP) (a, b, l) =
      (a + ((rs.filter (fun r => !r.unschedulable)).map Runner.cpu).sum,
       b + ((rs.filter (fun r => !r.unschedulable)).map Runner.memory).sum,
       l ++ runnerMatchedNames byIP rs) := by
  induction rs with
  | nil =>
    intro a b l
    simp [runnerMatchedNames]
  | cons x xs ih =>
    intro a b l
    rw [List.foldl_cons]
    by_cases hu : x.unschedulable = true
    · have hstep : runnerCapacityStep byIP (a, b, l) x = (a, b, l) := by
        simp [runnerCapacityStep, hu]
      rw [hstep, ih]
      simp [List.filter_cons, hu, runnerMatchedNames, List.filterMap_cons]
    · have hu' : x.unschedulable = false := by simpa using hu
      by_cases hdom : x.domain = ""
      · have hstep : runnerCapacityStep byIP (a, b, l) x = (a + x.cpu, b + x.memory, l) := by
          simp [runnerCapacityStep, hu', hdom]
        rw [hstep, ih]
        simp [List.filter_cons, hu', runnerMatchedNames, List.filterMap_cons, hdom, add_assoc]
      · cases hfind : byIP x.domain with
        | none =>
          have hstep : runnerCapacityStep byIP (a, b, l) x =
              (a + x.cpu, b + x.memory, l) := by
            simp [runnerCapacityStep, hu', hdom, hfind]
          rw [hstep, ih]
          simp [List.filter_cons, hu', runnerMatchedNames, List.filterMap_cons, hdom, hfind,
            add_assoc]
        | some node =>
          have hstep : runnerCapacityStep byIP (a, b, l) x =
              (a + x.cpu, b + x.memory, l ++ [node.name]) := by
            simp [runnerCapacityStep, hu', hdom, hfind]
          rw [hstep, ih]
          simp [List.filter_cons, hu', runnerMatchedNames, List.filterMap_cons, hdom, hfind,
            add_assoc]

/-- Decomposition of the second loop of `calculateResourceMetrics`: it
adds the allocatable sums over schedulable nodes not in the set. -/
theorem nodeCapacityLoop_aux (nodesWithRunners : List String) (nodes : List Node) :
    ∀ a b, nodes.foldl (nodeCapacityStep nodesWithRunners) (a, b) =
      (a + ((nodes.filter (fun n => !n.unschedulable &&
              !(nodesWithRunners.contains n.name))).map nodeAllocatableCpuCores).sum,
       b + ((nodes.filter (fun n => !n.unschedulable &&
              !(nodesWithRunners.contains n.name))).map nodeAllocatableMemoryGiB).sum) := by
  induction nodes with
  | nil =>
    intro a b
    simp
  | cons x xs ih =>
    intro a b
    rw [List.foldl_cons]
    by_cases hu : x.unschedulable = true
    · have hstep : nodeCapacityStep nodesWithRunners (a, b) x = (a, b) := by
        simp [nodeCapacityStep, hu]
      rw [hstep, ih]
      simp [List.filter_cons, hu]
    · have hu' : x.unschedulable = false := by simpa using hu
      by_cases hm : x.name ∈ nodesWithRunners
      · have hstep : nodeCapacityStep nodesWithRunners (a, b) x = (a, b) := by
          simp [nodeCapacityStep, hu', hm]
        rw [hstep, ih]
        simp [List.filter_cons, hu', hm]
      · have hstep : nodeCapacityStep nodesWithRunners (a, b) x =
            (a + nodeAllocatableCpuCores x, b + nodeAllocatableMemoryGiB x) := by
          simp [nodeCapacityStep, hu', hm, getNodeAllocatableResources]
        rw [hstep, ih]
        simp [List.filter_cons, hu', hm, add_assoc]

/-- The set component of the first loop decides exactly the spec-side
matched-node predicate. -/
theorem matchedNames_contains (s : ClusterState) (name : String) :
    (runnerMatchedNames (nodeByIP s.nodes) s.runners).contains name =
      matchedNodeName s name := by
  rw [Bool.eq_iff_iff]
  simp only [runnerMatchedNames, matchedNodeName, List.contains_iff_exists_mem_beq,
    List.mem_filterMap, List.any_eq_true]
  constructor
  · rintro ⟨v, ⟨r, hr, hf⟩, hbeq⟩
    refine ⟨r, hr, ?_⟩
    by_cases hcond : (!r.unschedulable && r.domain != "") = true
    · rw [if_pos hcond] at hf
      rw [Bool.and_eq_true] at hcond
      cases hb : nodeByIP s.nodes r.domain with
      | none => simp [hb] at hf
      | some node =>
        simp only [hb, Option.map_some'] at hf
        have hv : node.name = v := by simpa using hf
        have hnv : name = v := by simpa using hbeq
        simp [hcond.1, hcond.2, hb, hv, hnv]
    · rw [if_neg hcond] at hf
      simp at hf
  · rintro ⟨r, hr, hp⟩
    simp only [Bool.and_eq_true] at hp
    obtain ⟨⟨hs, hd⟩, hm⟩ := hp
    cases hb : nodeByIP s.nodes r.domain with
    | none => simp [hb] at hm
    | some node =>
      rw [hb] at hm
      have hv : node.name = name := by simpa using hm
      refine ⟨node.name, ⟨r, hr, ?_⟩, by simp [hv]⟩
      simp [hs, hd, hb]

/-- Claim C4: no double-counting of capacity.  `TotalCPUCapacity` is
exactly the sum of self-reported CPU over schedulable runners plus the
allocatable CPU over schedulable nodes not matched (through `NodeByIP` on
a runner domain) to a schedulable runner, and likewise for memory. -/
theorem no_double_counting (s : ClusterState) :
    (calculateResourceMetrics s).TotalCPUCapacity =
      schedulableRunnerCpuSum s + unmatchedNodeCpuSum s ∧
    (calculateResourceMetrics s).TotalMemoryGiBCapacity =
      schedulableRunnerMemSum s + unmatchedNodeMemSum s := by
  have h1 := runnerCapacityLoop_aux (nodeByIP s.nodes) s.runners 0 0 []
  have hfl : runnerCapacityLoop (nodeByIP s.nodes) s.runners =
      (schedulableRunnerCpuSum s, schedulableRunnerMemSum s,
       runnerMatchedNames (nodeByIP s.nodes) s.runners) := by
    rw [runnerCapacityLoop, h1]
    simp [schedulableRunnerCpuSum, schedulableRunnerMemSum]
  have hfilter :
      s.nodes.filter (fun n => !n.unschedulable &&
        !((runnerMatchedNames (nodeByIP s.nodes) s.runners).contains n.name)) =
      s.nodes.filter (fun n => !n.unschedulable && !matchedNodeName s n.name) := by
    refine List.filter_congr ?_
    intro n _
    rw [matchedNames_contains]
  have h2 := nodeCapacityLoop_aux (runnerMatchedNames (nodeByIP s.nodes) s.runners) s.nodes 0 0
  have hnl : nodeCapacityLoop (runnerMatchedNames (nodeByIP s.nodes) s.runners) s.nodes =
      (unmatchedNodeCpuSum s, unmatchedNodeMemSum s) := by
    rw [nodeCapacityLoop, h2, hfilter]
    simp [unmatchedNodeCpuSum, unmatchedNodeMemSum]
  constructor
  · show (runnerCapacityLoop (nodeByIP s.nodes) s.runners).1 +
      (nodeCapacityLoop (runnerCapacityLoop (nodeByIP s.nodes) s.runners).2.2 s.nodes).1 = _
    rw [hfl, hnl]
  · show (runnerCapacityLoop (nodeByIP s.nodes) s.runners).2.1 +
      (nodeCapacityLoop (runnerCapacityLoop (nodeByIP s.nodes) s.runners).2.2 s.nodes).2 = _
    rw [hfl, hnl]

/-- Claim C9: `getNodeAllocatableResources` always returns the success
case, so the warn-and-skip branches at its two call sites (the node
capacity loop of `calculateResourceMetrics` and the per-runner scale-down
check of `handleScaleDown`) are unreachable, and a node with missing
allocatable entries contributes zero cores and zero GiB. -/
theorem allocatable_resources_never_error :
    (∀ n : Node, getNodeAllocatableResources n =
      Except.ok (nodeAllocatableCpuCores n, nodeAllocatableMemoryGiB n)) ∧
    (∀ n : Node, n.allocatableCpuMilli = none → n.allocatableMemoryBytes = none →
      getNodeAllocatableResources n = Except.ok ((0 : ℚ), (0 : ℚ))) ∧
    (∀ (nodesWithRunners : List String) (nodes : List Node),
      nodeCapacityLoop nodesWithRunners nodes =
        nodeCapacityLoopNoSkip nodesWithRunners nodes) ∧
    (∀ (cfg : Config) (s : ClusterState) (metrics : ResourceMetrics) (r : Runner),
      scaleDownCandidate cfg s metrics r = scaleDownCandidateNoSkip cfg s metrics r) := by
  refine ⟨fun n => rfl, ?_, fun nodesWithRunners nodes => rfl, fun cfg s metrics r => rfl⟩
  intro n h1 h2
  simp [getNodeAllocatableResources, nodeAllocatableCpuCores, nodeAllocatableMemoryGiB, h1, h2]

/-- Witness for C9 at a node with both allocatable entries missing. -/
theorem allocatable_resources_never_error_witness :
    getNodeAllocatableResources
      { name := "bare", unschedulable := false, addresses := [],
        allocatableCpuMilli := none, allocatableMemoryBytes := none } =
      Except.ok ((0 : ℚ), (0 : ℚ)) :=
  allocatable_resources_never_error.2.1
    { name := "bare", unschedulable := false, addresses := [],
      allocatableCpuMilli := none, allocatableMemoryBytes := none } rfl rfl

/-- The `handleScaleDown` collection loop in closed form. -/
theorem handleScaleDownBatch_eq_filterMap (cfg : Config) (s : ClusterState)
    (metrics : ResourceMetrics) :
    handleScaleDownBatch cfg s metrics =
      (deletableRunners s.runners).filterMap (scaleDownCandidate cfg s metrics) := by
  have h := foldl_candidate_eq_filterMap (scaleDownCandidate cfg s metrics)
    (deletableRunners s.runners) []
  rw [handleScaleDownBatch, h, List.nil_append]

/-- Characterization of the per-runner scale-down decision. -/
theorem scaleDownCandidate_eq_some (cfg : Config) (s : ClusterState)
    (metrics : ResourceMetrics) (r : Runner) (pod : Pod) :
    scaleDownCandidate cfg s metrics r = some pod ↔
      r.domain ≠ "" ∧
      ∃ node, nodeByIP s.nodes r.domain = some node ∧
        (cfg.MinIdleCpu : ℚ) ≤ metrics.TotalAvailableCPU - nodeAllocatableCpuCores node ∧
        (cfg.MinIdleMemory : ℚ) ≤
          metrics.TotalAvailableMemoryGiB - nodeAllocatableMemoryGiB node ∧
        s.scheduledPlaceholders.find? (fun p => p.nodeName == node.name) = some pod := by
  rw [scaleDownCandidate]
  by_cases hdom : r.domain = ""
  · simp [hdom]
  · rw [if_neg (by simpa using hdom)]
    cases hb : nodeByIP s.nodes r.domain with
    | none => simp [hdom]
    | some node =>
      simp only [getNodeAllocatableResources]
      constructor
      · intro hc
        by_cases h1 : metrics.TotalAvailableCPU - nodeAllocatableCpuCores node <
            (cfg.MinIdleCpu : ℚ)
        · simp [h1] at hc
        · by_cases h2 : metrics.TotalAvailableMemoryGiB - nodeAllocatableMemoryGiB node <
              (cfg.MinIdleMemory : ℚ)
          · simp [h1, h2] at hc
          · refine ⟨hdom, node, rfl, not_lt.mp h1, not_lt.mp h2, ?_⟩
            simpa [h1, h2] using hc
      · rintro ⟨-, node', hn', hcpu, hmem, hfind⟩
        obtain rfl : node = node' := by
          exact Option.some.inj hn'
        simp [not_lt.mpr hcpu, not_lt.mpr hmem, hfind]

/-- Claim C1: scale-down safety.  A pod enters the delete batch exactly
when some Deletable runner's domain resolves to a node whose removal
keeps both pre-tick availability totals at or above the configured idle
minimums and that node carries a scheduled placeholder pod; every
candidate is checked against the same `metrics` record. -/
theorem scale_down_safety (cfg : Config) (s : ClusterState)
    (metrics : ResourceMetrics) (pod : Pod) :
    pod ∈ handleScaleDownBatch cfg s metrics ↔
      ∃ r, r ∈ deletableRunners s.runners ∧ r.domain ≠ "" ∧
        ∃ node, nodeByIP s.nodes r.domain = some node ∧
          (cfg.MinIdleCpu : ℚ) ≤ metrics.TotalAvailableCPU - nodeAllocatableCpuCores node ∧
          (cfg.MinIdleMemory : ℚ) ≤
            metrics.TotalAvailableMemoryGiB - nodeAllocatableMemoryGiB node ∧
          s.scheduledPlaceholders.find? (fun p => p.nodeName == node.name) = some pod := by
  rw [handleScaleDownBatch_eq_filterMap, List.mem_filterMap]
  constructor
  · rintro ⟨r, hr, hc⟩
    exact ⟨r, hr, (scaleDownCandidate_eq_some cfg s metrics r pod).mp hc⟩
  · rintro ⟨r, hr, hrest⟩
    exact ⟨r, hr, (scaleDownCandidate_eq_some cfg s metrics r pod).mpr hrest⟩

/-- Claim C3: the classifier of `gatherClusterState` assigns each fetched
runner to exactly one of Active, Deletable, Idle (Active iff any usage
getter is positive, Deletable iff not Active and unschedulable, Idle iff
not Active and schedulable); the three lists are pairwise disjoint and
their multiset union is the input list. -/
theorem runner_partition_invariant (rs : List Runner) :
    (∀ r, r ∈ activeRunners rs → isAllocated r = true) ∧
    (∀ r, r ∈ deletableRunners rs → isAllocated r = false ∧ r.unschedulable = true) ∧
    (∀ r, r ∈ idleRunners rs → isAllocated r = false ∧ r.unschedulable = false) ∧
    (∀ r, r ∈ activeRunners rs → r ∉ deletableRunners rs ∧ r ∉ idleRunners rs) ∧
    (∀ r, r ∈ deletableRunners rs → r ∉ idleRunners rs) ∧
    (∀ r : Runner, (activeRunners rs).count r + (deletableRunners rs).count r +
      (idleRunners rs).count r = rs.count r) := by
  refine ⟨?_, ?_, ?_, ?_, ?_, ?_⟩
  · intro r hr
    exact (List.mem_filter.mp hr).2
  · intro r hr
    have h := (List.mem_filter.mp hr).2
    simp only [Bool.and_eq_true, Bool.not_eq_true'] at h
    exact ⟨h.1, h.2⟩
  · intro r hr
    have h := (List.mem_filter.mp hr).2
    simp only [Bool.and_eq_true, Bool.not_eq_true'] at h
    exact ⟨h.1, h.2⟩
  · intro r hr
    have ha : isAllocated r = true := (List.mem_filter.mp hr).2
    constructor
    · intro hd
      have h := (List.mem_filter.mp hd).2
      simp [ha] at h
    · intro hi
      have h := (List.mem_filter.mp hi).2
      simp [ha] at h
  · intro r hr
    have h := (List.mem_filter.mp hr).2
    simp only [Bool.and_eq_true, Bool.not_eq_true'] at h
    intro hi
    have h' := (List.mem_filter.mp hi).2
    simp [h.1, h.2] at h'
  · intro r
    induction rs with
    | nil => simp [activeRunners, deletableRunners, idleRunners]
    | cons x xs ih =>
      by_cases hx : isAllocated x = true
      · by_cases hrx : x = r
        · subst hrx
          simp [activeRunners, deletableRunners, idleRunners, List.filter_cons, hx,
            List.count_cons] at ih ⊢
          omega
        · simp [activeRunners, deletableRunners, idleRunners, List.filter_cons, hx,
            List.count_cons, hrx] at ih ⊢
          omega
      · have hx' : isAllocated x = false := by simpa using hx
        by_cases hu : x.unschedulable = true
        · by_cases hrx : x = r
          · subst hrx
            simp [activeRunners, deletableRunners, idleRunners, List.filter_cons, hx', hu,
              List.count_cons] at ih ⊢
            omega
          · simp [activeRunners, deletableRunners, idleRunners, List.filter_cons, hx', hu,
              List.count_cons, hrx] at ih ⊢
            omega
        · have hu' : x.unschedulable = false := by simpa using hu
          by_cases hrx : x = r
          · subst hrx
            simp [activeRunners, deletableRunners, idleRunners, List.filter_cons, hx', hu',
              List.count_cons] at ih ⊢
            omega
          · simp [activeRunners, deletableRunners, idleRunners, List.filter_cons, hx', hu',
              List.count_cons, hrx] at ih ⊢
            omega

/-- Claim C2: placeholder accounting.  On every scale-up evaluation,
`nodesToCreate` equals the computed deficit minus the number of Pending
placeholder pods, pods are created only for a positive value, and a
deficit at most the pending count creates zero pods. -/
theorem placeholder_accounting (cfg : Config) (s : ClusterState) (m : ResourceMetrics) :
    (handleScaleUp cfg s m).nodesToCreate =
      nodesNeededFromDeficit cfg m (idleRunners s.runners).length (nascentNodes s).length -
        (s.pendingPlaceholders.length : ℤ) ∧
    ((handleScaleUp cfg s m).podsCreated ≠ 0 →
      0 < (handleScaleUp cfg s m).nodesToCreate ∧
      (handleScaleUp cfg s m).podsCreated = (handleScaleUp cfg s m).nodesToCreate.toNat) ∧
    (nodesNeededFromDeficit cfg m (idleRunners s.runners).length (nascentNodes s).length ≤
        (s.pendingPlaceholders.length : ℤ) →
      (handleScaleUp cfg s m).podsCreated = 0) := by
  have e1 : (handleScaleUp cfg s m).nodesToCreate =
      nodesNeededFromDeficit cfg m (idleRunners s.runners).length (nascentNodes s).length -
        (s.pendingPlaceholders.length : ℤ) := rfl
  have e2 : (handleScaleUp cfg s m).podsCreated =
      if 0 < (handleScaleUp cfg s m).nodesToCreate then
        (handleScaleUp cfg s m).nodesToCreate.toNat
      else 0 := rfl
  refine ⟨e1, ?_, ?_⟩
  · intro hp
    by_cases hpos : 0 < (handleScaleUp cfg s m).nodesToCreate
    · rw [e2, if_pos hpos]
      exact ⟨hpos, rfl⟩
    · rw [e2, if_neg hpos] at hp
      exact absurd rfl hp
  · intro hle
    have hnp : ¬ 0 < (handleScaleUp cfg s m).nodesToCreate := by
      rw [e1]
      omega
    rw [e2, if_neg hnp]

/-- Evaluation of the deficit at the C2 witness inputs. -/
theorem sampleScaleUp_deficit_eval :
    nodesNeededFromDeficit sampleScaleUpConfig sampleScaleUpMetrics 0 0 = 1 := by
  have hceil : ⌈(((16 : ℤ) : ℚ) - 8) / 8⌉ = 1 := by
    rw [Int.ceil_eq_iff]
    constructor
    · norm_num
    · norm_num
  rw [nodesNeededFromDeficit, deficitRaw, isCpuIdleTooLow, isMemIdleTooLow,
    isIdleRunnerBufferTooLow, isUtilizationTooHigh, isCpuUtilizationTooHigh,
    isMemUtilizationTooHigh]
  norm_num [sampleScaleUpConfig, sampleScaleUpMetrics, deficitStep, hceil]

/-- Witness for C2: a deficit of one node fully absorbed by one pending
placeholder creates zero pods. -/
theorem placeholder_accounting_witness :
    (handleScaleUp sampleScaleUpConfig sampleScaleUpState sampleScaleUpMetrics).podsCreated = 0 ∧
    nodesNeededFromDeficit sampleScaleUpConfig sampleScaleUpMetrics 0 0 = 1 := by
  constructor
  · refine (placeholder_accounting sampleScaleUpConfig sampleScaleUpState
      sampleScaleUpMetrics).2.2 ?_
    have hidle : (idleRunners sampleScaleUpState.runners).length = 0 := rfl
    have hnas : (nascentNodes sampleScaleUpState).length = 0 := rfl
    rw [hidle, hnas, sampleScaleUp_deficit_eval]
    norm_num [sampleScaleUpState]
  · exact sampleScaleUp_deficit_eval

/-- `deficitStep` never shrinks its accumulator. -/
theorem deficitStep_le_self (prev : ℤ) (cond : Bool) (x : ℤ) :
    prev ≤ deficitStep prev cond x := by
  cases cond <;> simp [deficitStep]

/-- `deficitStep` preserves non-negativity. -/
theorem deficitStep_nonneg (prev : ℤ) (cond : Bool) (x : ℤ) (h : 0 ≤ prev) :
    0 ≤ deficitStep prev cond x :=
  le_trans h (deficitStep_le_self prev cond x)

/-- `deficitStep` is monotone when the condition and value both move up. -/
theorem deficitStep_mono {prev prev' x x' : ℤ} {cond cond' : Bool}
    (h : prev ≤ prev') (hc : cond = true → cond' = true)
    (hx : cond' = true → x ≤ x') :
    deficitStep prev cond x ≤ deficitStep prev' cond' x' := by
  cases hcond' : cond' with
  | false =>
    have hfalse : cond = false := by
      cases hcond : cond
      · rfl
      · exact absurd (hc hcond) (by simp [hcond'])
    simp only [deficitStep, hfalse, hcond', if_false]
    exact h
  | true =>
    cases hcond : cond with
    | false =>
      simp only [deficitStep, hcond, hcond', if_false, if_true]
      exact le_trans h (le_max_left _ _)
    | true =>
      simp only [deficitStep, hcond, hcond', if_true]
      exact max_le_max h (hx hcond')

/-- The raw deficit is non-negative. -/
theorem deficitRaw_nonneg (cfg : Config) (m : ResourceMetrics) (i n : ℕ) :
    0 ≤ deficitRaw cfg m i n :=
  deficitStep_nonneg _ _ _ (deficitStep_nonneg _ _ _ (deficitStep_nonneg _ _ _ le_rfl))

/-- Raising `MinIdleCpu` can only make the CPU-idle predicate fire. -/
theorem isCpuIdleTooLow_mono (m : ResourceMetrics) (cfg : Config) (d : ℤ)
    (hd : 0 ≤ d) (h : isCpuIdleTooLow m cfg = true) :
    isCpuIdleTooLow m { cfg with MinIdleCpu := cfg.MinIdleCpu + d } = true := by
  rw [isCpuIdleTooLow, decide_eq_true_eq] at h ⊢
  have hcast : (cfg.MinIdleCpu : ℚ) ≤ ((cfg.MinIdleCpu + d : ℤ) : ℚ) := by
    push_cast
    have h0 : (0 : ℚ) ≤ (d : ℚ) := by exact_mod_cast hd
    linarith
  exact lt_of_lt_of_le h hcast

/-- Raising `MinIdleCpu` never lowers the raw deficit. -/
theorem deficitRaw_mono (cfg : Config) (m : ResourceMetrics) (i n : ℕ)
    (d : ℤ) (hd : 0 ≤ d) :
    deficitRaw cfg m i n ≤ deficitRaw { cfg with MinIdleCpu := cfg.MinIdleCpu + d } m i n := by
  have hcast : (cfg.MinIdleCpu : ℚ) ≤ ((cfg.MinIdleCpu + d : ℤ) : ℚ) := by
    push_cast
    have h0 : (0 : ℚ) ≤ (d : ℚ) := by exact_mod_cast hd
    linarith
  refine deficitStep_mono (deficitStep_mono (deficitStep_mono le_rfl ?_ ?_)
    (fun h => h) (fun _ => le_rfl)) (fun h => h) (fun _ => le_rfl)
  · intro h
    rw [Bool.and_eq_true] at h ⊢
    exact ⟨isCpuIdleTooLow_mono m cfg d hd h.1, h.2⟩
  · intro h
    rw [Bool.and_eq_true, decide_eq_true_eq] at h
    have havg : 0 < m.AvgCpuPerNode := h.2
    refine Int.ceil_le_ceil ?_
    show ((cfg.MinIdleCpu : ℚ) - m.TotalAvailableCPU) / m.AvgCpuPerNode ≤
      (((cfg.MinIdleCpu + d : ℤ) : ℚ) - m.TotalAvailableCPU) / m.AvgCpuPerNode
    have hnum : (cfg.MinIdleCpu : ℚ) - m.TotalAvailableCPU ≤
        ((cfg.MinIdleCpu + d : ℤ) : ℚ) - m.TotalAvailableCPU :=
      sub_le_sub_right hcast _
    exact div_le_div_of_nonneg_right hnum (le_of_lt havg)

/-- Raising `MinIdleCpu` never lowers the bumped deficit. -/
theorem nodesNeeded_mono (cfg : Config) (m : ResourceMetrics) (i n : ℕ)
    (d : ℤ) (hd : 0 ≤ d) :
    nodesNeededFromDeficit cfg m i n ≤
      nodesNeededFromDeficit { cfg with MinIdleCpu := cfg.MinIdleCpu + d } m i n := by
  have hraw := deficitRaw_mono cfg m i n d hd
  have h0 := deficitRaw_nonneg cfg m i n
  have h0' := deficitRaw_nonneg { cfg with MinIdleCpu := cfg.MinIdleCpu + d } m i n
  rw [nodesNeededFromDeficit, nodesNeededFromDeficit]
  have hutil : isUtilizationTooHigh m { cfg with MinIdleCpu := cfg.MinIdleCpu + d } =
      isUtilizationTooHigh m cfg := rfl
  rw [hutil]
  by_cases hu : isUtilizationTooHigh m cfg = true
  · by_cases h1 : deficitRaw cfg m i n = 0
    · by_cases h2 : deficitRaw { cfg with MinIdleCpu := cfg.MinIdleCpu + d } m i n = 0
      · simp [hu, h1, h2]
      · simp only [hu, h1, h2, decide_True, decide_False, Bool.true_and, Bool.and_false,
          if_true, if_false]
        omega
    · by_cases h2 : deficitRaw { cfg with MinIdleCpu := cfg.MinIdleCpu + d } m i n = 0
      · simp only [hu, h1, h2, decide_True, decide_False, Bool.true_and, Bool.and_false,
          if_true, if_false]
        omega
      · simp only [hu, h1, h2, decide_False, Bool.and_false, if_false]
        exact hraw
  · have hu' : isUtilizationTooHigh m cfg = false := by simpa using hu
    simp only [hu', Bool.false_and, Bool.false_eq_true, if_false]
    exact hraw

/-- Raising `MinIdleCpu` can only make `shouldScaleUp` fire. -/
theorem shouldScaleUp_mono (m : ResourceMetrics) (cfg : Config) (i n : ℕ)
    (d : ℤ) (hd : 0 ≤ d)
    (h : shouldScaleUp m cfg i n = true) :
    shouldScaleUp m { cfg with MinIdleCpu := cfg.MinIdleCpu + d } i n = true := by
  simp only [shouldScaleUp, Bool.or_eq_true] at h ⊢
  exact h.imp (fun h3 => h3.imp (fun h2 => h2.imp id id)
    (isCpuIdleTooLow_mono m cfg d hd)) id

/-- Counterexample to C7 as stated: with five pending placeholders,
availability 5 and average node size 2, raising `MinIdleCpu` from 5 to 6
moves the tick's `nodesToCreate` from 0 (scale-up does not fire) to
1 − 5 = −4, a strict decrease. -/
theorem scale_up_monotonicity_counterexample :
    sampleMonoConfigB.MinIdleCpu = sampleMonoConfigA.MinIdleCpu + 1 ∧
    sampleMonoConfigB.MaxResourceUtilizationPercent =
      sampleMonoConfigA.MaxResourceUtilizationPercent ∧
    sampleMonoConfigB.MinIdleRunners = sampleMonoConfigA.MinIdleRunners ∧
    sampleMonoConfigB.MinIdleMemory = sampleMonoConfigA.MinIdleMemory ∧
    tickNodesToCreate sampleMonoConfigB sampleMonoState sampleMonoMetrics <
      tickNodesToCreate sampleMonoConfigA sampleMonoState sampleMonoMetrics := by
  refine ⟨rfl, rfl, rfl, rfl, ?_⟩
  have hidle : (idleRunners sampleMonoState.runners).length = 0 := rfl
  have hnas : (nascentNodes sampleMonoState).length = 0 := rfl
  have hA : shouldScaleUp sampleMonoMetrics sampleMonoConfigA 0 0 = false := by
    rw [shouldScaleUp, isUtilizationTooHigh, isCpuUtilizationTooHigh,
      isMemUtilizationTooHigh, isIdleRunnerBufferTooLow, isCpuIdleTooLow, isMemIdleTooLow]
    norm_num [sampleMonoMetrics, sampleMonoConfigA]
  have hB : shouldScaleUp sampleMonoMetrics sampleMonoConfigB 0 0 = true := by
    rw [shouldScaleUp, isUtilizationTooHigh, isCpuUtilizationTooHigh,
      isMemUtilizationTooHigh, isIdleRunnerBufferTooLow, isCpuIdleTooLow, isMemIdleTooLow]
    norm_num [sampleMonoMetrics, sampleMonoConfigB]
  have hceil : ⌈(1 : ℚ) / 2⌉ = 1 := by
    rw [Int.ceil_eq_iff]
    constructor
    · norm_num
    · norm_num
  have hneedB : nodesNeededFromDeficit sampleMonoConfigB sampleMonoMetrics 0 0 = 1 := by
    rw [nodesNeededFromDeficit, deficitRaw, isCpuIdleTooLow, isMemIdleTooLow,
      isIdleRunnerBufferTooLow, isUtilizationTooHigh, isCpuUtilizationTooHigh,
      isMemUtilizationTooHigh]
    norm_num [sampleMonoConfigB, sampleMonoMetrics, deficitStep, hceil]
  have hAval : tickNodesToCreate sampleMonoConfigA sampleMonoState sampleMonoMetrics = 0 := by
    rw [tickNodesToCreate, hidle, hnas, if_neg (by rw [hA]; exact Bool.false_ne_true)]
  have hBval : tickNodesToCreate sampleMonoConfigB sampleMonoState sampleMonoMetrics = -4 := by
    rw [tickNodesToCreate, hidle, hnas, if_pos (by rw [hB])]
    have e1 : (handleScaleUp sampleMonoConfigB sampleMonoState sampleMonoMetrics).nodesToCreate =
        nodesNeededFromDeficit sampleMonoConfigB sampleMonoMetrics 0 0 -
          (sampleMonoState.pendingPlaceholders.length : ℤ) := rfl
    rw [e1, hneedB]
    norm_num [sampleMonoState]
  rw [hAval, hBval]
  norm_num

/-- Claim C7, amended: for every state, metrics and configuration,
raising `MinIdleCpu` by a non-negative delta never decreases the number
of placeholder pods the tick creates (`nodesToCreate` clamped at zero,
and zero when scale-up does not fire). -/
theorem scale_up_pods_monotone (cfg : Config) (s : ClusterState)
    (m : ResourceMetrics) (d : ℤ) (hd : 0 ≤ d) :
    tickPodsCreated cfg s m ≤
      tickPodsCreated { cfg with MinIdleCpu := cfg.MinIdleCpu + d } s m := by
  rw [tickPodsCreated, tickPodsCreated]
  by_cases hfire : shouldScaleUp m cfg (idleRunners s.runners).length
      (nascentNodes s).length = true
  case neg =>
    rw [if_neg hfire]
    exact Nat.zero_le _
  case pos =>
    rw [if_pos hfire,
      if_pos (shouldScaleUp_mono m cfg (idleRunners s.runners).length
        (nascentNodes s).length d hd hfire)]
    have hneeded := nodesNeeded_mono cfg m (idleRunners s.runners).length
      (nascentNodes s).length d hd
    show (if 0 < nodesNeededFromDeficit cfg m (idleRunners s.runners).length
          (nascentNodes s).length - (s.pendingPlaceholders.length : ℤ) then
        (nodesNeededFromDeficit cfg m (idleRunners s.runners).length
          (nascentNodes s).length - (s.pendingPlaceholders.length : ℤ)).toNat
      else 0) ≤
      (if 0 < nodesNeededFromDeficit { cfg with MinIdleCpu := cfg.MinIdleCpu + d } m
          (idleRunners s.runners).length (nascentNodes s).length -
          (s.pendingPlaceholders.length : ℤ) then
        (nodesNeededFromDeficit { cfg with MinIdleCpu := cfg.MinIdleCpu + d } m
          (idleRunners s.runners).length (nascentNodes s).length -
          (s.pendingPlaceholders.length : ℤ)).toNat
      else 0)
    by_cases hpos : 0 < nodesNeededFromDeficit cfg m (idleRunners s.runners).length
        (nascentNodes s).length - (s.pendingPlaceholders.length : ℤ)
    · rw [if_pos hpos, if_pos (by omega)]
      exact Int.toNat_le_toNat (by omega)
    · rw [if_neg hpos]
      exact Nat.zero_le _

/-- Witness for the amended C7 at the counterexample's inputs with
delta 1. -/
theorem scale_up_pods_monotone_witness :
    (0 : ℤ) ≤ 1 ∧
    tickPodsCreated sampleMonoConfigA sampleMonoState sampleMonoMetrics ≤
      tickPodsCreated
        { sampleMonoConfigA with MinIdleCpu := sampleMonoConfigA.MinIdleCpu + 1 }
        sampleMonoState sampleMonoMetrics :=
  ⟨by decide, scale_up_pods_monotone sampleMonoConfigA sampleMonoState sampleMonoMetrics 1
    (by decide)⟩

/-- Counterexample to C5 as stated: with a valid bearer token and a
non-empty auth-key header, the resolver succeeds after the bearer attempt
(header validator not invoked, no cookie set) but the auth-key header is
NOT stripped, because the bearer success returns before the header
attempt's deletion runs. -/
theorem credential_precedence_counterexample :
    sampleBearerRequest.authKeyHeader ≠ "" ∧
    bearerSucceeds sampleBearerEnv sampleBearerRequest = true ∧
    (Authenticate sampleBearerEnv sampleBearerRequest "sb-1").errMsg = none ∧
    (Authenticate sampleBearerEnv sampleBearerRequest "sb-1").didRedirect = false ∧
    (Authenticate sampleBearerEnv sampleBearerRequest "sb-1").headerKeyInvoked = false ∧
    (Authenticate sampleBearerEnv sampleBearerRequest "sb-1").cookiesSet = [] ∧
    (Authenticate sampleBearerEnv sampleBearerRequest "sb-1").headerStripped = false := by
  decide

/-- Claim C5, amended: when the bearer attempt succeeds, the resolver
returns success right there — the header-key validator is not invoked, no
cookie is issued, and the auth-key header is NOT stripped (it is deleted
only when the header attempt itself runs). -/
theorem credential_precedence_bearer (env : AuthEnv) (req : AuthRequest)
    (tok : String) (h : bearerSucceeds env req = true) :
    Authenticate env req tok =
      { sandboxId := tok, didRedirect := false, errMsg := none, authErrors := [],
        bearerInvoked := true, headerKeyInvoked := false, queryKeyInvoked := false,
        headerStripped := false, queryParamRemoved := false, cookiesSet := [],
        redirectedTo := none } := by
  rw [bearerSucceeds, Bool.and_eq_true] at h
  obtain ⟨happ, hvalid⟩ := h
  rw [bearerApplicable, Bool.and_eq_true, decide_eq_true_eq] at happ
  rw [beq_iff_eq] at hvalid
  rw [Authenticate, if_pos ⟨happ.1, happ.2⟩, hvalid]

/-- Witness for the amended C5 at the concrete bearer-and-header request. -/
theorem credential_precedence_bearer_witness :
    bearerSucceeds sampleBearerEnv sampleBearerRequest = true ∧
    Authenticate sampleBearerEnv sampleBearerRequest "sb-1" =
      { sandboxId := "sb-1", didRedirect := false, errMsg := none, authErrors := [],
        bearerInvoked := true, headerKeyInvoked := false, queryKeyInvoked := false,
        headerStripped := false, queryParamRemoved := false, cookiesSet := [],
        redirectedTo := none } :=
  ⟨by decide, credential_precedence_bearer sampleBearerEnv sampleBearerRequest "sb-1"
    (by decide)⟩

/-- Counterexample to C6 as stated: a request with no credentials at all
still redirects with the AGGREGATED message (carrying the signed-token
exchange failure reason), not the canonical missing-authentication
message, because the exchange attempt always appends a reason before the
redirect is taken. -/
theorem missing_auth_message_counterexample :
    noCredentialsPresented sampleNoCredRequest = true ∧
    (Authenticate sampleNoCredEnv sampleNoCredRequest "sb-2").didRedirect = true ∧
    (Authenticate sampleNoCredEnv sampleNoCredRequest "sb-2").errMsg =
      some "authentication failed:\nfailed to get sandbox ID: boom. Is the token expired?" ∧
    (Authenticate sampleNoCredEnv sampleNoCredRequest "sb-2").errMsg ≠
      some MISSING_AUTH_MESSAGE := by
  decide

/-- Claim C6, amended: for every request presenting no credentials whose
signed-token exchange fails and whose auth URL resolves, the 307 redirect
carries the aggregated failure message containing exactly the exchange
failure reason; the canonical missing-authentication message branch is
unreachable. -/
theorem missing_auth_message_amended (env : AuthEnv) (req : AuthRequest)
    (tok e url : String)
    (hreq : noCredentialsPresented req = true)
    (hex : env.exchangeToken = Except.error e)
    (hurl : env.authUrl = Except.ok url) :
    (Authenticate env req tok).didRedirect = true ∧
    (Authenticate env req tok).authErrors =
      ["failed to get sandbox ID: " ++ e ++ ". Is the token expired?"] ∧
    (Authenticate env req tok).errMsg =
      some ("authentication failed:\n" ++
        ("failed to get sandbox ID: " ++ e ++ ". Is the token expired?")) := by
  rw [noCredentialsPresented] at hreq
  simp only [Bool.and_eq_true, Bool.not_eq_true', beq_iff_eq] at hreq
  obtain ⟨⟨⟨hbApp, hhKey⟩, hqKey⟩, hcookie⟩ := hreq
  have hbearer : ¬(req.authorizationHeader ≠ "" ∧
      hasPrefixB req.authorizationHeader "Bearer " = true) := by
    rintro ⟨h1, h2⟩
    rw [bearerApplicable] at hbApp
    simp [h1, h2] at hbApp
  have hauth : Authenticate env req tok =
      finishAuth env tok
        { authErrors := [], bearerInvoked := false, headerKeyInvoked := false,
          queryKeyInvoked := false, headerStripped := false } := by
    rw [Authenticate, if_neg hbearer, headerAuthStep, if_neg (by simp [hhKey]),
      queryAuthStep, if_neg (by simp [hqKey]), cookieAuthStep]
    cases hc : req.cookie with
    | none => rfl
    | some v =>
      rw [hc] at hcookie
      simp only [beq_iff_eq] at hcookie
      dsimp only
      rw [if_neg (by simp [hcookie])]
  have hfail : getSandboxIdFromSignedPreviewUrlToken env =
      Except.error ("failed to get sandbox ID: " ++ e ++ ". Is the token expired?") := by
    rw [getSandboxIdFromSignedPreviewUrlToken, hex]
  rw [hauth, finishAuth, hfail, hurl]
  refine ⟨rfl, rfl, ?_⟩
  rfl

/-- Witness for the amended C6 at the concrete no-credential request. -/
theorem missing_auth_message_amended_witness :
    noCredentialsPresented sampleNoCredRequest = true ∧
    (Authenticate sampleNoCredEnv sampleNoCredRequest "sb-2").authErrors =
      ["failed to get sandbox ID: " ++ "boom" ++ ". Is the token expired?"] :=
  ⟨by decide,
    (missing_auth_message_amended sampleNoCredEnv sampleNoCredRequest "sb-2" "boom"
      "https://auth.example" (by decide) rfl rfl).2.1⟩

/-- `finishAuth` extends the collected reasons with exactly the
signed-token exchange contribution. -/
theorem finishAuth_authErrors (env : AuthEnv) (tok : String) (acc : AuthAcc) :
    (finishAuth env tok acc).authErrors = acc.authErrors ++ exchangeContrib env := by
  rw [finishAuth, exchangeContrib]
  cases hx : getSandboxIdFromSignedPreviewUrlToken env with
  | ok p =>
    obtain ⟨sid, ck⟩ := p
    simp
  | error e =>
    cases hu : env.authUrl with
    | error ue => simp
    | ok url => simp

/-- The cookie attempt falls through to `finishAuth`, adding exactly its
contribution, whenever it does not succeed. -/
theorem cookieAuthStep_fallthrough (env : AuthEnv) (req : AuthRequest)
    (tok : String) (acc : AuthAcc) (hk : cookieSucceeds env req tok = false) :
    ∃ acc' : AuthAcc, cookieAuthStep env req tok acc = finishAuth env tok acc' ∧
      acc'.authErrors = acc.authErrors ++ cookieContrib env req tok := by
  rw [cookieSucceeds] at hk
  rw [cookieAuthStep, cookieContrib]
  cases hc : req.cookie with
  | none => exact ⟨acc, rfl, by simp⟩
  | some v =>
    rw [hc] at hk
    dsimp only at hk ⊢
    by_cases hv : v = ""
    · have hnv : ¬(v ≠ "") := fun h => h hv
      rw [if_neg hnv, if_neg hnv]
      exact ⟨acc, rfl, by simp⟩
    · rw [if_neg hv] at hk
      rw [if_pos hv, if_pos hv]
      cases hd : env.cookieDecode (SANDBOX_AUTH_COOKIE_NAME ++ tok) v with
      | error e =>
        exact ⟨{ acc with authErrors := acc.authErrors ++ ["Cookie decoding error: " ++ e] },
          rfl, by simp⟩
      | ok d =>
        rw [hd] at hk
        dsimp only at hk
        have hdt : ¬(d = tok) := by
          intro h
          rw [h] at hk
          simp at hk
        dsimp only
        rw [if_neg hdt]
        exact ⟨acc, rfl, by simp⟩

/-- The query attempt falls through to `finishAuth`, adding exactly its
contribution and the cookie contribution, whenever neither succeeds. -/
theorem queryAuthStep_fallthrough (env : AuthEnv) (req : AuthRequest)
    (tok : String) (acc : AuthAcc)
    (hq : querySucceeds env req = false) (hk : cookieSucceeds env req tok = false) :
    ∃ acc' : AuthAcc, queryAuthStep env req tok acc = finishAuth env tok acc' ∧
      acc'.authErrors = acc.authErrors ++
        (queryContrib env req ++ cookieContrib env req tok) := by
  rw [queryAuthStep, queryContrib]
  by_cases hqa : req.queryAuthKey ≠ ""
  · rw [if_pos hqa, if_pos hqa]
    cases hv : env.authKeyValid req.queryAuthKey with
    | fail e =>
      obtain ⟨acc', he, herrs⟩ := cookieAuthStep_fallthrough env req tok
        { acc with
          queryKeyInvoked := true,
          authErrors := acc.authErrors ++ ["Auth key query param validation error: " ++ e] } hk
      exact ⟨acc', he, by simp [herrs]⟩
    | ok b =>
      cases b with
      | true =>
        rw [querySucceeds, hv] at hq
        simp [hqa] at hq
      | false =>
        obtain ⟨acc', he, herrs⟩ := cookieAuthStep_fallthrough env req tok
          { acc with
            queryKeyInvoked := true,
            authErrors := acc.authErrors ++ ["Auth key query parameter is invalid"] } hk
        exact ⟨acc', he, by simp [herrs]⟩
  · rw [if_neg hqa, if_neg hqa]
    obtain ⟨acc', he, herrs⟩ := cookieAuthStep_fallthrough env req tok acc hk
    exact ⟨acc', he, by simp [herrs]⟩

/-- The header attempt falls through to `finishAuth`, adding exactly its
contribution and the later ones, whenever none of the remaining attempts
succeeds. -/
theorem headerAuthStep_fallthrough (env : AuthEnv) (req : AuthRequest)
    (tok : String) (acc : AuthAcc)
    (hh : headerSucceeds env req = false) (hq : querySucceeds env req = false)
    (hk : cookieSucceeds env req tok = false) :
    ∃ acc' : AuthAcc, headerAuthStep env req tok acc = finishAuth env tok acc' ∧
      acc'.authErrors = acc.authErrors ++
        (headerContrib env req ++ (queryContrib env req ++ cookieContrib env req tok)) := by
  rw [headerAuthStep, headerContrib]
  by_cases hha : req.authKeyHeader ≠ ""
  · rw [if_pos hha, if_pos hha]
    cases hv : env.authKeyValid req.authKeyHeader with
    | fail e =>
      obtain ⟨acc', he, herrs⟩ := queryAuthStep_fallthrough env req tok
        { acc with
          headerKeyInvoked := true,
          headerStripped := true,
          authErrors := acc.authErrors ++ ["Auth key header validation error: " ++ e] } hq hk
      exact ⟨acc', he, by simp [herrs]⟩
    | ok b =>
      cases b with
      | true =>
        rw [headerSucceeds, hv] at hh
        simp [hha] at hh
      | false =>
        obtain ⟨acc', he, herrs⟩ := queryAuthStep_fallthrough env req tok
          { acc with
            headerKeyInvoked := true,
            headerStripped := true,
            authErrors := acc.authErrors ++ ["Auth key header is invalid"] } hq hk
        exact ⟨acc', he, by simp [herrs]⟩
  · rw [if_neg hha, if_neg hha]
    obtain ⟨acc', he, herrs⟩ := queryAuthStep_fallthrough env req tok acc hq hk
    exact ⟨acc', he, by simp [herrs]⟩

/-- When no credential attempt succeeds, `Authenticate` reaches the
signed-token tail with exactly the per-attempt contributions collected. -/
theorem Authenticate_fallthrough (env : AuthEnv) (req : AuthRequest) (tok : String)
    (hb : bearerSucceeds env req = false) (hh : headerSucceeds env req = false)
    (hq : querySucceeds env req = false) (hk : cookieSucceeds env req tok = false) :
    ∃ acc' : AuthAcc, Authenticate env req tok = finishAuth env tok acc' ∧
      acc'.authErrors = bearerContrib env req ++ (headerContrib env req ++
        (queryContrib env req ++ cookieContrib env req tok)) := by
  rw [Authenticate, bearerContrib]
  by_cases hba : req.authorizationHeader ≠ "" ∧ hasPrefixB req.authorizationHeader "Bearer " = true
  · have happ : bearerApplicable req = true := by
      rw [bearerApplicable, Bool.and_eq_true, decide_eq_true_eq]
      exact hba
    rw [if_pos hba, if_pos happ]
    cases hv : env.bearerValid (trimSpaceStr (dropPrefixStr req.authorizationHeader "Bearer ")) with
    | fail e =>
      obtain ⟨acc', he, herrs⟩ := headerAuthStep_fallthrough env req tok
        { authErrors := ["Bearer token validation error: " ++ e], bearerInvoked := true, headerKeyInvoked := false, queryKeyInvoked := false, headerStripped := false }
        hh hq hk
      exact ⟨acc', he, by simp [herrs]⟩
    | ok b =>
      cases b with
      | true =>
        rw [bearerSucceeds, happ, hv] at hb
        simp at hb
      | false =>
        obtain ⟨acc', he, herrs⟩ := headerAuthStep_fallthrough env req tok
          { authErrors := ["Bearer token is invalid"], bearerInvoked := true, headerKeyInvoked := false, queryKeyInvoked := false, headerStripped := false }
          hh hq hk
        exact ⟨acc', he, by simp [herrs]⟩
  · have happ : ¬(bearerApplicable req = true) := by
      intro h
      rw [bearerApplicable, Bool.and_eq_true, decide_eq_true_eq] at h
      exact hba h
    rw [if_neg hba, if_neg happ]
    obtain ⟨acc', he, herrs⟩ := headerAuthStep_fallthrough env req tok
      { authErrors := [], bearerInvoked := false, headerKeyInvoked := false, queryKeyInvoked := false, headerStripped := false } hh hq hk
    exact ⟨acc', he, by simp [herrs]⟩

/-- Counterexample to C8 as stated: a cookie that decodes successfully
but to a value different from the path token contributes NO reason; with
only such a cookie presented, the aggregated list holds exactly the
signed-token exchange reason. -/
theorem cookie_mismatch_reason_counterexample :
    sampleCookieEnv.cookieDecode (SANDBOX_AUTH_COOKIE_NAME ++ "sb-3") "cv" =
      Except.ok "other-sandbox" ∧
    ("other-sandbox" : String) ≠ "sb-3" ∧
    (Authenticate sampleCookieEnv sampleCookieRequest "sb-3").didRedirect = true ∧
    (Authenticate sampleCookieEnv sampleCookieRequest "sb-3").authErrors =
      ["failed to get sandbox ID: E. Is the token expired?"] := by
  refine ⟨rfl, by decide, by decide, by decide⟩

/-- Claim C8, amended: when no attempt succeeds, the collected failure
list is exactly the concatenation of the per-attempt Invalid/Error
contributions and the exchange contribution — where inapplicable
(skipped) attempts contribute nothing and a successfully decoded but
mismatching cookie also contributes nothing (only a cookie decode error
contributes). -/
theorem auth_error_collection (env : AuthEnv) (req : AuthRequest) (tok : String)
    (hb : bearerSucceeds env req = false) (hh : headerSucceeds env req = false)
    (hq : querySucceeds env req = false) (hk : cookieSucceeds env req tok = false) :
    (Authenticate env req tok).authErrors =
      bearerContrib env req ++ headerContrib env req ++ queryContrib env req ++
        cookieContrib env req tok ++ exchangeContrib env := by
  obtain ⟨acc', he, herrs⟩ := Authenticate_fallthrough env req tok hb hh hq hk
  rw [he, finishAuth_authErrors, herrs]
  simp [List.append_assoc]

/-- Witness for the amended C8 at the mismatching-cookie request. -/
theorem auth_error_collection_witness :
    cookieSucceeds sampleCookieEnv sampleCookieRequest "sb-3" = false ∧
    (Authenticate sampleCookieEnv sampleCookieRequest "sb-3").authErrors =
      bearerContrib sampleCookieEnv sampleCookieRequest ++
        headerContrib sampleCookieEnv sampleCookieRequest ++
        queryContrib sampleCookieEnv sampleCookieRequest ++
        cookieContrib sampleCookieEnv sampleCookieRequest "sb-3" ++
        exchangeContrib sampleCookieEnv :=
  ⟨by decide, auth_error_collection sampleCookieEnv sampleCookieRequest "sb-3"
    (by decide) (by decide) (by decide) (by decide)⟩

/-- Claim C10: if the signed preview-token exchange succeeds at the API
but encoding the auth cookie fails, the helper returns an error, no
cookie is set, the resolved sandbox id is discarded, and the request
falls through to the 307 redirect exactly as for an invalid token. -/
theorem encode_failure_fails_attempt (env : AuthEnv) (req : AuthRequest)
    (tok sid emsg url : String)
    (hb : bearerSucceeds env req = false) (hh : headerSucceeds env req = false)
    (hq : querySucceeds env req = false) (hk : cookieSucceeds env req tok = false)
    (hex : env.exchangeToken = Except.ok sid)
    (henc : env.cookieEncode (SANDBOX_AUTH_COOKIE_NAME ++ sid) sid = Except.error emsg)
    (hurl : env.authUrl = Except.ok url) :
    getSandboxIdFromSignedPreviewUrlToken env =
      Except.error ("failed to encode cookie: " ++ emsg) ∧
    (Authenticate env req tok).didRedirect = true ∧
    (Authenticate env req tok).cookiesSet = [] ∧
    (Authenticate env req tok).sandboxId = tok ∧
    (Authenticate env req tok).redirectedTo = some url ∧
    ∃ msg, (Authenticate env req tok).errMsg = some msg := by
  have hfail : getSandboxIdFromSignedPreviewUrlToken env =
      Except.error ("failed to encode cookie: " ++ emsg) := by
    rw [getSandboxIdFromSignedPreviewUrlToken, hex]
    dsimp only
    rw [henc]
  obtain ⟨acc', he, -⟩ := Authenticate_fallthrough env req tok hb hh hq hk
  rw [he, finishAuth, hfail, hurl]
  exact ⟨rfl, rfl, rfl, rfl, rfl, _, rfl⟩

/-- Witness for C10 at the concrete encode-failure environment. -/
theorem encode_failure_fails_attempt_witness :
    getSandboxIdFromSignedPreviewUrlToken sampleEncodeFailEnv =
      Except.error ("failed to encode cookie: " ++ "enc-broken") ∧
    (Authenticate sampleEncodeFailEnv sampleNoCredRequest "sb-4").didRedirect = true ∧
    (Authenticate sampleEncodeFailEnv sampleNoCredRequest "sb-4").cookiesSet = [] :=
  have h := encode_failure_fails_attempt sampleEncodeFailEnv sampleNoCredRequest "sb-4"
    "sb-real" "enc-broken" "https://auth.example"
    (by decide) (by decide) (by decide) (by decide) rfl rfl rfl
  ⟨h.1, h.2.1, h.2.2.1⟩

/-- Witness for C3 at a concrete two-runner state: one allocated runner
and one unschedulable unallocated runner. -/
theorem runner_partition_invariant_witness :
    sampleActiveRunner ∈ activeRunners [sampleActiveRunner, sampleDeletableRunner] ∧
    sampleDeletableRunner ∈ deletableRunners [sampleActiveRunner, sampleDeletableRunner] ∧
    (activeRunners [sampleActiveRunner, sampleDeletableRunner]).count sampleActiveRunner +
      (deletableRunners [sampleActiveRunner, sampleDeletableRunner]).count sampleActiveRunner +
      (idleRunners [sampleActiveRunner, sampleDeletableRunner]).count sampleActiveRunner =
      ([sampleActiveRunner, sampleDeletableRunner] : List Runner).count sampleActiveRunner := by
  refine ⟨by decide, by decide,
    (runner_partition_invariant [sampleActiveRunner, sampleDeletableRunner]).2.2.2.2.2
      sampleActiveRunner⟩

end Daytona
